import Mathlib

/-!
# StatusNotifierWatcher: the registration / eviction state machine of `src/dbus-snw.c`

A shallow embedding of the three bus callbacks of `dbus-snw.c`
(`on_register_host`, `on_register_item`, `on_name_owner_changed`), of
`array_from_hash_set` and of `setup_dbus`, followed by theorems about them.

Conventions of the embedding.

* A `gchar *` is a Lean `String`: the bytes before the terminating NUL.
  `g_str_equal` is string equality, and the test `s[0] == '\0'` holds exactly
  when the string is empty.
* The process-wide variable `status_notifier_watcher` is passed explicitly:
  every callback takes the current value and returns the new one.
* The calls a callback makes on the outside world (log lines, method replies,
  property setters, signal emissions) are returned as a list of `Effect`s, in
  the order in which the C statements make them.
-/

namespace SNW

/-! ## GLib hash table used as a string set -/

/-- A `GHashTable` created with `g_str_hash` / `g_str_equal` and used as a set
(`g_hash_table_add`): a collection of strings holding no key twice. `keys` is
the order in which a `GHashTableIter` visits the keys; GLib leaves that order
open, and the claims below are stated through membership, counts and lengths
only. -/
structure GHashTable where
  keys : List String
  nodup : keys.Nodup

/-- The call `g_hash_table_new_full(g_str_hash, g_str_equal, g_free, NULL)`: the
empty table. -/
def g_hash_table_new_full : GHashTable :=
  ⟨[], List.nodup_nil⟩

/-- The call `g_hash_table_contains(table, key)`: whether the key is in the table. -/
def g_hash_table_contains (hash_table : GHashTable) (key : String) : Bool :=
  decide (key ∈ hash_table.keys)

/-- The call `g_hash_table_add(table, key)`: a key that is already there is replaced by
the equal new key (the set of strings does not change), a new key is inserted. -/
def g_hash_table_add (hash_table : GHashTable) (key : String) : GHashTable :=
  if h : key ∈ hash_table.keys then hash_table
  else ⟨key :: hash_table.keys, List.nodup_cons.mpr ⟨h, hash_table.nodup⟩⟩

/-- The call `g_hash_table_remove(table, key)`: drops the key when it is there. -/
def g_hash_table_remove (hash_table : GHashTable) (key : String) : GHashTable :=
  ⟨hash_table.keys.erase key, hash_table.nodup.erase key⟩

/-- The call `g_hash_table_size(table)`: the number of keys. -/
def g_hash_table_size (hash_table : GHashTable) : Nat :=
  hash_table.keys.length

/-! ## The exported interface object and the outbound calls -/

/-- A `GDBusMethodInvocation`: the handle of one inbound method call. The only
attribute kept is the unique connection name of the caller. -/
structure GDBusMethodInvocation where
  sender : String
deriving DecidableEq, Repr

/-- Property values held by the `SnWatcher` skeleton. `registered_items` is
`none` for a `NULL` string array. -/
structure SnWatcher where
  protocol_version : Int
  is_host_registered : Bool
  registered_items : Option (List String)
deriving DecidableEq, Repr

/-- One call made by a callback on the outside world. -/
inductive Effect where
  | print (text : String)
  | complete_register_host (invocation : GDBusMethodInvocation)
  | complete_register_item (invocation : GDBusMethodInvocation)
  | set_protocol_version (value : Int)
  | set_is_host_registered (value : Bool)
  | set_registered_items (value : Option (List String))
  | emit_host_registered
  | emit_item_registered (service : String)
  | emit_item_unregistered (service : String)
deriving DecidableEq, Repr

/-- Modelled from the spec: `sn_watcher_skeleton_new` of the generated
`dbus-status-notifier-watcher.h`; a fresh skeleton holds the zero value of
every property. -/
def sn_watcher_skeleton_new : SnWatcher :=
  { protocol_version := 0, is_host_registered := false, registered_items := none }

/-- Modelled from the spec: `sn_watcher_set_protocol_version` of the generated
header stores the value of property `ProtocolVersion`. -/
def sn_watcher_set_protocol_version (object : SnWatcher) (value : Int) : SnWatcher :=
  { object with protocol_version := value }

/-- Modelled from the spec: `sn_watcher_set_is_host_registered` of the generated
header stores the value of property `IsStatusNotifierHostRegistered`. -/
def sn_watcher_set_is_host_registered (object : SnWatcher) (value : Bool) : SnWatcher :=
  { object with is_host_registered := value }

/-- Modelled from the spec: `sn_watcher_set_registered_items` of the generated
header stores (a copy of) the string array as the value of property
`RegisteredStatusNotifierItems`. -/
def sn_watcher_set_registered_items (object : SnWatcher)
    (value : Option (List String)) : SnWatcher :=
  { object with registered_items := value }

/-! ## The program state -/

/-- The C struct `StatusNotifierWatcher`. -/
structure StatusNotifierWatcher where
  skeleton : SnWatcher
  bus_owner_id : Nat
  hosts : GHashTable
  items : GHashTable

/-- The constant `G_DBUS_METHOD_INVOCATION_HANDLED` (`TRUE`). -/
def G_DBUS_METHOD_INVOCATION_HANDLED : Bool := true

/-- The constant `G_SOURCE_REMOVE` (`FALSE`). -/
def G_SOURCE_REMOVE : Bool := false

/-- What a callback with a `gboolean` result leaves behind: its return value,
the new value of the global and the outbound calls it made, in order. -/
structure Outcome where
  ret : Bool
  state : StatusNotifierWatcher
  effects : List Effect

/-! ## The callbacks -/

/-- The function `array_from_hash_set`: the keys in iteration order (the `NULL` that ends the
C array is the end of the list). -/
def array_from_hash_set (hash_table : GHashTable) : List String :=
  hash_table.keys

/-- The handler `on_register_host`. Its `object` is the skeleton the handler is connected to in
`on_bus_acquired`, which is `status_notifier_watcher.skeleton`. -/
def on_register_host (w : StatusNotifierWatcher) (invocation : GDBusMethodInvocation)
    (service : String) : Outcome :=
  let hosts :=
    if !g_hash_table_contains w.hosts service then g_hash_table_add w.hosts service
    else w.hosts
  { ret := G_DBUS_METHOD_INVOCATION_HANDLED
    state := { w with
      hosts := hosts
      skeleton := sn_watcher_set_is_host_registered w.skeleton true }
    effects :=
      [ Effect.print ("Registering StatusNotifierHost as " ++ service ++ "\n"),
        Effect.complete_register_host invocation,
        Effect.set_is_host_registered true,
        Effect.emit_host_registered ] }

/-- The handler `on_register_item`, on the same skeleton. -/
def on_register_item (w : StatusNotifierWatcher) (invocation : GDBusMethodInvocation)
    (service : String) : Outcome :=
  let items :=
    if !g_hash_table_contains w.items service then g_hash_table_add w.items service
    else w.items
  let array := array_from_hash_set items
  { ret := G_DBUS_METHOD_INVOCATION_HANDLED
    state := { w with
      items := items
      skeleton := sn_watcher_set_registered_items w.skeleton (some array) }
    effects :=
      [ Effect.print ("Registering StatusNotifierItem, service: " ++ service ++ "\n"),
        Effect.set_registered_items (some array),
        Effect.complete_register_item invocation,
        Effect.emit_item_registered service ] }

/-- First `if` of `on_name_owner_changed`: eviction of an item. -/
def name_owner_changed_items (w : StatusNotifierWatcher) (name new_owner : String) :
    StatusNotifierWatcher × List Effect :=
  if g_hash_table_contains w.items name && new_owner = "" then
    let items := g_hash_table_remove w.items name
    let array := array_from_hash_set items
    ({ w with
        items := items
        skeleton := sn_watcher_set_registered_items w.skeleton (some array) },
     [ Effect.print ("Removing StatusNotifierItem " ++ name ++ "\n"),
       Effect.set_registered_items (some array),
       Effect.emit_item_unregistered name ])
  else (w, [])

/-- Second `if` of `on_name_owner_changed`: eviction of a host. -/
def name_owner_changed_hosts (w : StatusNotifierWatcher) (name new_owner : String) :
    StatusNotifierWatcher × List Effect :=
  if g_hash_table_contains w.hosts name && new_owner = "" then
    let hosts := g_hash_table_remove w.hosts name
    if g_hash_table_size hosts = 0 then
      ({ w with
          hosts := hosts
          skeleton := sn_watcher_set_is_host_registered w.skeleton false },
       [ Effect.print ("Removing StatusNotifierHost " ++ name ++ "\n"),
         Effect.set_is_host_registered false ])
    else
      ({ w with hosts := hosts },
       [ Effect.print ("Removing StatusNotifierHost " ++ name ++ "\n") ])
  else (w, [])

/-- The callback `on_name_owner_changed`, with the three strings of `parameters` already
unpacked: the log lines, then the item branch, then the host branch. -/
def on_name_owner_changed (w : StatusNotifierWatcher) (name old_owner new_owner : String) :
    StatusNotifierWatcher × List Effect :=
  let r1 := name_owner_changed_items w name new_owner
  let r2 := name_owner_changed_hosts r1.1 name new_owner
  (r2.1,
   [ Effect.print "Name owner changed\n",
     Effect.print ("Name: " ++ name ++ ", old owner: " ++ old_owner ++
       ", new owner: " ++ new_owner ++ "\n") ] ++ r1.2 ++ r2.2)

/-- The function `setup_dbus`; `owner_id` is what `g_bus_own_name` returns. -/
def setup_dbus (owner_id : Nat) : Outcome :=
  let w : StatusNotifierWatcher :=
    { skeleton := sn_watcher_skeleton_new
      bus_owner_id := owner_id
      hosts := g_hash_table_new_full
      items := g_hash_table_new_full }
  let s1 := sn_watcher_set_protocol_version w.skeleton 1
  let s2 := sn_watcher_set_is_host_registered s1 false
  let s3 := sn_watcher_set_registered_items s2 none
  { ret := G_SOURCE_REMOVE
    state := { w with skeleton := s3 }
    effects :=
      [ Effect.print "Setting up dbus\n",
        Effect.set_protocol_version 1,
        Effect.set_is_host_registered false,
        Effect.set_registered_items none ] }

/-! ## The event loop -/

/-- An inbound unit of work, as wired up by `on_bus_acquired`: one of the two
method calls of the exported interface or a `NameOwnerChanged` broadcast. -/
inductive Event where
  | register_host (invocation : GDBusMethodInvocation) (service : String)
  | register_item (invocation : GDBusMethodInvocation) (service : String)
  | name_owner_changed (name old_owner new_owner : String)
deriving DecidableEq, Repr

/-- The callback connected to an event, run on the current state. -/
def dispatch (w : StatusNotifierWatcher) : Event → StatusNotifierWatcher × List Effect
  | Event.register_host invocation service =>
      let r := on_register_host w invocation service
      (r.state, r.effects)
  | Event.register_item invocation service =>
      let r := on_register_item w invocation service
      (r.state, r.effects)
  | Event.name_owner_changed name old_owner new_owner =>
      on_name_owner_changed w name old_owner new_owner

/-- The state after the events have been handled one at a time, in order. -/
def run_events (w : StatusNotifierWatcher) : List Event → StatusNotifierWatcher
  | [] => w
  | e :: es => run_events (dispatch w e).1 es

/-- The state reached from `setup_dbus` by a sequence of events. -/
def reached (owner_id : Nat) (events : List Event) : StatusNotifierWatcher :=
  run_events (setup_dbus owner_id).state events

/-! ## Kinds of outbound calls -/

/-- Whether an outbound call is a `StatusNotifierItemUnregistered` emission. -/
def is_item_unregistered : Effect → Bool
  | Effect.emit_item_unregistered _ => true
  | _ => false

/-- Whether an outbound call is a log line (`g_print`): everything else is a
reply, a property update or a signal. -/
def is_print : Effect → Bool
  | Effect.print _ => true
  | _ => false

/-- Whether an outbound call is a method reply. -/
def is_reply : Effect → Bool
  | Effect.complete_register_host _ => true
  | Effect.complete_register_item _ => true
  | _ => false

/-- Whether an outbound call is a property setter. -/
def is_property_update : Effect → Bool
  | Effect.set_protocol_version _ => true
  | Effect.set_is_host_registered _ => true
  | Effect.set_registered_items _ => true
  | _ => false

/-- Whether an outbound call is a `StatusNotifierItemRegistered` emission. -/
def is_item_registered : Effect → Bool
  | Effect.emit_item_registered _ => true
  | _ => false

/-- A register-host call as an event. -/
def host_call (c : GDBusMethodInvocation × String) : Event :=
  Event.register_host c.1 c.2

/-- A register-item call as an event. -/
def item_call (c : GDBusMethodInvocation × String) : Event :=
  Event.register_item c.1 c.2

/-- The invariant of the membership store: the published flag says whether
the hosts table is non-empty. -/
def flag_matches_hosts (w : StatusNotifierWatcher) : Prop :=
  w.skeleton.is_host_registered = decide (0 < g_hash_table_size w.hosts)

instance (w : StatusNotifierWatcher) : Decidable (flag_matches_hosts w) := by
  unfold flag_matches_hosts
  infer_instance

/-! ## States used as concrete inputs -/

/-- The store after `"org.test.A"` and `"org.test.B"` registered as items. -/
def two_items_state : StatusNotifierWatcher :=
  reached 1 [Event.register_item ⟨":1.7"⟩ "org.test.A",
    Event.register_item ⟨":1.8"⟩ "org.test.B"]

/-- The store after connection `":1.7"` registered its own name both as a host
and as an item. -/
def host_and_item_state : StatusNotifierWatcher :=
  reached 1 [Event.register_host ⟨":1.7"⟩ ":1.7", Event.register_item ⟨":1.7"⟩ ":1.7"]

/-- Registration of the two hosts `"1.2"` and `"1.3"`. -/
def two_hosts_events : List Event :=
  [Event.register_host ⟨":1.5"⟩ "1.2", Event.register_host ⟨":1.6"⟩ "1.3"]

/-! ## Facts about the hash-table operations -/

theorem mem_keys_add (t : GHashTable) (k x : String) :
    x ∈ (g_hash_table_add t k).keys ↔ x = k ∨ x ∈ t.keys := by
  unfold g_hash_table_add
  split
  · constructor
    · exact Or.inr
    · rintro (rfl | h) <;> assumption
  · simp

theorem mem_keys_remove (t : GHashTable) (k x : String) :
    x ∈ (g_hash_table_remove t k).keys ↔ x ≠ k ∧ x ∈ t.keys := by
  simp [g_hash_table_remove, t.nodup.mem_erase_iff]

theorem mem_keys_guarded_add (t : GHashTable) (k x : String) :
    x ∈ (if !g_hash_table_contains t k then g_hash_table_add t k else t).keys ↔
      x = k ∨ x ∈ t.keys := by
  by_cases h : k ∈ t.keys
  · simp only [g_hash_table_contains, h, decide_True, Bool.not_true, Bool.false_eq_true, if_false]
    constructor
    · exact Or.inr
    · rintro (rfl | h') <;> assumption
  · simp only [g_hash_table_contains, h, decide_False, Bool.not_false, if_true]
    exact mem_keys_add t k x

theorem count_keys (t : GHashTable) (x : String) :
    t.keys.count x = if x ∈ t.keys then 1 else 0 :=
  List.count_eq_of_nodup t.nodup

/-! ## Facts about single callbacks -/

theorem register_host_hosts (w : StatusNotifierWatcher) (i : GDBusMethodInvocation)
    (s x : String) :
    x ∈ (on_register_host w i s).state.hosts.keys ↔ x = s ∨ x ∈ w.hosts.keys :=
  mem_keys_guarded_add w.hosts s x

theorem register_item_items (w : StatusNotifierWatcher) (i : GDBusMethodInvocation)
    (s x : String) :
    x ∈ (on_register_item w i s).state.items.keys ↔ x = s ∨ x ∈ w.items.keys :=
  mem_keys_guarded_add w.items s x

theorem register_host_keeps_flag (w : StatusNotifierWatcher) (i : GDBusMethodInvocation)
    (s : String) : flag_matches_hosts (on_register_host w i s).state := by
  have h : s ∈ (on_register_host w i s).state.hosts.keys :=
    (register_host_hosts w i s s).mpr (Or.inl rfl)
  have hpos : 0 < (on_register_host w i s).state.hosts.keys.length :=
    List.length_pos_of_mem h
  simp only [flag_matches_hosts, g_hash_table_size, hpos, decide_True]
  rfl

theorem register_item_keeps_flag (w : StatusNotifierWatcher) (i : GDBusMethodInvocation)
    (s : String) (h : flag_matches_hosts w) :
    flag_matches_hosts (on_register_item w i s).state := h

theorem name_owner_changed_hosts_keeps_flag (w : StatusNotifierWatcher) (n o : String)
    (h : flag_matches_hosts w) : flag_matches_hosts (name_owner_changed_hosts w n o).1 := by
  unfold name_owner_changed_hosts
  split
  · rename_i hc
    simp only [Bool.and_eq_true, decide_eq_true_eq, g_hash_table_contains] at hc
    dsimp only
    split
    · rename_i hz
      simp [flag_matches_hosts, hz, sn_watcher_set_is_host_registered]
    · rename_i hz
      have hpos : 0 < g_hash_table_size (g_hash_table_remove w.hosts n) := Nat.pos_of_ne_zero hz
      have hpos' : 0 < g_hash_table_size w.hosts := List.length_pos_of_mem hc.1
      simp only [flag_matches_hosts, hpos, hpos', decide_True] at h ⊢
      exact h
  · exact h

theorem name_owner_changed_items_keeps_flag (w : StatusNotifierWatcher) (n o : String)
    (h : flag_matches_hosts w) : flag_matches_hosts (name_owner_changed_items w n o).1 := by
  unfold name_owner_changed_items
  split
  · exact h
  · exact h

theorem dispatch_keeps_flag (w : StatusNotifierWatcher) (e : Event)
    (h : flag_matches_hosts w) : flag_matches_hosts (dispatch w e).1 := by
  cases e with
  | register_host i s => exact register_host_keeps_flag w i s
  | register_item i s => exact register_item_keeps_flag w i s h
  | name_owner_changed n o o2 =>
      exact name_owner_changed_hosts_keeps_flag _ n o2
        (name_owner_changed_items_keeps_flag w n o2 h)

theorem run_events_keeps_flag (events : List Event) (w : StatusNotifierWatcher)
    (h : flag_matches_hosts w) : flag_matches_hosts (run_events w events) := by
  induction events generalizing w with
  | nil => exact h
  | cons e es ih => exact ih _ (dispatch_keeps_flag w e h)

theorem reached_flag (owner_id : Nat) (events : List Event) :
    flag_matches_hosts (reached owner_id events) :=
  run_events_keeps_flag events _ rfl

/-! ## Facts about the two branches of `on_name_owner_changed` -/

theorem items_branch_evicts (w : StatusNotifierWatcher) (n : String) (h : n ∈ w.items.keys) :
    name_owner_changed_items w n "" =
      ({ w with
          items := g_hash_table_remove w.items n
          skeleton := sn_watcher_set_registered_items w.skeleton
            (some (array_from_hash_set (g_hash_table_remove w.items n))) },
       [ Effect.print ("Removing StatusNotifierItem " ++ n ++ "\n"),
         Effect.set_registered_items (some (array_from_hash_set (g_hash_table_remove w.items n))),
         Effect.emit_item_unregistered n ]) := by
  simp [name_owner_changed_items, g_hash_table_contains, h]

theorem items_branch_idle (w : StatusNotifierWatcher) (n o : String)
    (h : o ≠ "" ∨ n ∉ w.items.keys) : name_owner_changed_items w n o = (w, []) := by
  unfold name_owner_changed_items
  rw [if_neg]
  simp only [g_hash_table_contains, Bool.and_eq_true, decide_eq_true_eq]
  tauto

theorem hosts_branch_idle (w : StatusNotifierWatcher) (n o : String)
    (h : o ≠ "" ∨ n ∉ w.hosts.keys) : name_owner_changed_hosts w n o = (w, []) := by
  unfold name_owner_changed_hosts
  rw [if_neg]
  simp only [g_hash_table_contains, Bool.and_eq_true, decide_eq_true_eq]
  tauto

theorem items_branch_frame (w : StatusNotifierWatcher) (n o : String) :
    (name_owner_changed_items w n o).1.hosts = w.hosts ∧
    (name_owner_changed_items w n o).1.skeleton.is_host_registered =
      w.skeleton.is_host_registered := by
  unfold name_owner_changed_items
  split <;> exact ⟨rfl, rfl⟩

theorem hosts_branch_frame (w : StatusNotifierWatcher) (n o : String) :
    (name_owner_changed_hosts w n o).1.items = w.items ∧
    (name_owner_changed_hosts w n o).1.skeleton.registered_items =
      w.skeleton.registered_items ∧
    (name_owner_changed_hosts w n o).2.filter is_item_unregistered = [] ∧
    ∀ v, Effect.set_registered_items v ∉ (name_owner_changed_hosts w n o).2 := by
  unfold name_owner_changed_hosts
  split
  · dsimp only
    split
    · exact ⟨rfl, rfl, rfl, by simp⟩
    · exact ⟨rfl, rfl, rfl, by simp⟩
  · exact ⟨rfl, rfl, rfl, by simp⟩

theorem hosts_branch_evicts (w : StatusNotifierWatcher) (n : String) (h : n ∈ w.hosts.keys) :
    (name_owner_changed_hosts w n "").1.hosts = g_hash_table_remove w.hosts n ∧
    (name_owner_changed_hosts w n "").1.skeleton.is_host_registered =
      (if g_hash_table_size (g_hash_table_remove w.hosts n) = 0 then false
       else w.skeleton.is_host_registered) := by
  unfold name_owner_changed_hosts
  rw [if_pos (by simp [g_hash_table_contains, h])]
  dsimp only
  split
  · exact ⟨rfl, rfl⟩
  · exact ⟨rfl, rfl⟩

theorem items_branch_keeps (w : StatusNotifierWatcher) (n o x : String)
    (hx : x ∈ w.items.keys) (hgone : x ∉ (name_owner_changed_items w n o).1.items.keys) :
    x = n ∧ o = "" := by
  by_cases hact : o ≠ "" ∨ n ∉ w.items.keys
  · rw [items_branch_idle w n o hact] at hgone
    exact absurd hx hgone
  · have ho : o = "" := by tauto
    have hn : n ∈ w.items.keys := by tauto
    subst ho
    rw [items_branch_evicts w n hn] at hgone
    refine ⟨?_, rfl⟩
    by_contra hne
    exact hgone ((mem_keys_remove w.items n x).mpr ⟨hne, hx⟩)

theorem hosts_branch_keeps (w : StatusNotifierWatcher) (n o x : String)
    (hx : x ∈ w.hosts.keys) (hgone : x ∉ (name_owner_changed_hosts w n o).1.hosts.keys) :
    x = n ∧ o = "" := by
  by_cases hact : o ≠ "" ∨ n ∉ w.hosts.keys
  · rw [hosts_branch_idle w n o hact] at hgone
    exact absurd hx hgone
  · have ho : o = "" := by tauto
    have hn : n ∈ w.hosts.keys := by tauto
    subst ho
    rw [(hosts_branch_evicts w n hn).1] at hgone
    refine ⟨?_, rfl⟩
    by_contra hne
    exact hgone ((mem_keys_remove w.hosts n x).mpr ⟨hne, hx⟩)

theorem hosts_branch_flag (w : StatusNotifierWatcher) (n : String)
    (hflag : flag_matches_hosts w) (h : n ∈ w.hosts.keys) :
    (∀ x, x ∈ (name_owner_changed_hosts w n "").1.hosts.keys ↔ x ≠ n ∧ x ∈ w.hosts.keys) ∧
    ((∀ x, x ∈ w.hosts.keys → x = n) →
      (name_owner_changed_hosts w n "").1.skeleton.is_host_registered = false) ∧
    ((∃ x, x ∈ w.hosts.keys ∧ x ≠ n) →
      (name_owner_changed_hosts w n "").1.skeleton.is_host_registered = true) := by
  obtain ⟨hh, hf⟩ := hosts_branch_evicts w n h
  refine ⟨?_, ?_, ?_⟩
  · intro x
    rw [hh]
    exact mem_keys_remove w.hosts n x
  · intro hall
    have hnil : (g_hash_table_remove w.hosts n).keys = [] := by
      apply List.eq_nil_iff_forall_not_mem.mpr
      intro x hx
      have := (mem_keys_remove w.hosts n x).mp hx
      exact this.1 (hall x this.2)
    rw [hf, if_pos (by simp [g_hash_table_size, hnil])]
  · rintro ⟨x, hx, hne⟩
    have hmem : x ∈ (g_hash_table_remove w.hosts n).keys :=
      (mem_keys_remove w.hosts n x).mpr ⟨hne, hx⟩
    have hpos : g_hash_table_size (g_hash_table_remove w.hosts n) ≠ 0 :=
      Nat.pos_iff_ne_zero.mp (List.length_pos_of_mem hmem)
    rw [hf, if_neg hpos, hflag]
    exact decide_eq_true (List.length_pos_of_mem h)

/-! ## Facts about runs -/

theorem run_events_append (a b : List Event) (w : StatusNotifierWatcher) :
    run_events w (a ++ b) = run_events (run_events w a) b := by
  induction a generalizing w with
  | nil => rfl
  | cons e es ih => exact ih _

theorem run_host_calls_hosts (calls : List (GDBusMethodInvocation × String))
    (w : StatusNotifierWatcher) (x : String) :
    x ∈ (run_events w (calls.map host_call)).hosts.keys ↔
      x ∈ w.hosts.keys ∨ x ∈ calls.map Prod.snd := by
  induction calls generalizing w with
  | nil => simp [run_events]
  | cons c cs ih =>
      have step : run_events w ((c :: cs).map host_call) =
          run_events (on_register_host w c.1 c.2).state (cs.map host_call) := rfl
      rw [step, ih, register_host_hosts]
      simp only [List.map_cons, List.mem_cons]
      tauto

theorem run_item_calls_items (calls : List (GDBusMethodInvocation × String))
    (w : StatusNotifierWatcher) (x : String) :
    x ∈ (run_events w (calls.map item_call)).items.keys ↔
      x ∈ w.items.keys ∨ x ∈ calls.map Prod.snd := by
  induction calls generalizing w with
  | nil => simp [run_events]
  | cons c cs ih =>
      have step : run_events w ((c :: cs).map item_call) =
          run_events (on_register_item w c.1 c.2).state (cs.map item_call) := rfl
      rw [step, ih, register_item_items]
      simp only [List.map_cons, List.mem_cons]
      tauto

theorem run_host_calls_flag (calls : List (GDBusMethodInvocation × String))
    (w : StatusNotifierWatcher) (h : calls ≠ []) :
    (run_events w (calls.map host_call)).skeleton.is_host_registered = true := by
  induction calls generalizing w with
  | nil => exact absurd rfl h
  | cons c cs ih =>
      cases cs with
      | nil => rfl
      | cons d ds => exact ih (on_register_host w c.1 c.2).state (List.cons_ne_nil d ds)

theorem run_item_calls_last (calls : List (GDBusMethodInvocation × String))
    (w : StatusNotifierWatcher) (h : calls ≠ []) :
    run_events w (calls.map item_call) =
      (on_register_item (run_events w (calls.dropLast.map item_call))
        (calls.getLast h).1 (calls.getLast h).2).state := by
  conv_lhs => rw [← List.dropLast_append_getLast h]
  rw [List.map_append, run_events_append]
  rfl

/-! ## Claims -/

/-- C1: `setup_dbus` leaves both tables empty and the flag false, and in every
state reached from it by register-host calls, register-item calls and
`NameOwnerChanged` events the published `IsStatusNotifierHostRegistered` is
true exactly when the hosts table is non-empty. -/
theorem host_flag_invariant (owner_id : Nat) (events : List Event) :
    (setup_dbus owner_id).state.hosts.keys = [] ∧
    (setup_dbus owner_id).state.items.keys = [] ∧
    (setup_dbus owner_id).state.skeleton.is_host_registered = false ∧
    (reached owner_id events).skeleton.is_host_registered =
      decide (0 < g_hash_table_size (reached owner_id events).hosts) :=
  ⟨rfl, rfl, rfl, reached_flag owner_id events⟩

/-- C2: after a non-empty sequence of register-item calls from the empty store,
every string passed is in the items table exactly once and nothing else is in
it; the last call makes exactly one property update, which publishes a list
without duplicates whose elements are exactly the strings passed, and that list
is the value of `RegisteredStatusNotifierItems` afterwards. -/
theorem register_item_sequence (owner_id : Nat)
    (calls : List (GDBusMethodInvocation × String)) (h : calls ≠ []) :
    (∀ x, x ∈ calls.map Prod.snd →
      (reached owner_id (calls.map item_call)).items.keys.count x = 1) ∧
    (∀ x, x ∉ calls.map Prod.snd →
      (reached owner_id (calls.map item_call)).items.keys.count x = 0) ∧
    ∃ published : List String,
      (on_register_item (reached owner_id (calls.dropLast.map item_call))
        (calls.getLast h).1 (calls.getLast h).2).effects.filter is_property_update =
          [Effect.set_registered_items (some published)] ∧
      (reached owner_id (calls.map item_call)).skeleton.registered_items = some published ∧
      published = array_from_hash_set (reached owner_id (calls.map item_call)).items ∧
      published.Nodup ∧
      ∀ x, x ∈ published ↔ x ∈ calls.map Prod.snd := by
  have mem : ∀ x, x ∈ (reached owner_id (calls.map item_call)).items.keys ↔
      x ∈ calls.map Prod.snd := by
    intro x
    have := run_item_calls_items calls (setup_dbus owner_id).state x
    simpa [reached, setup_dbus, g_hash_table_new_full] using this
  have last := run_item_calls_last calls (setup_dbus owner_id).state h
  refine ⟨?_, ?_, ?_⟩
  · intro x hx
    rw [count_keys, if_pos ((mem x).mpr hx)]
  · intro x hx
    rw [count_keys, if_neg (fun hm => hx ((mem x).mp hm))]
  · refine ⟨(reached owner_id (calls.map item_call)).items.keys, ?_, ?_, rfl,
      (reached owner_id (calls.map item_call)).items.nodup, mem⟩
    · unfold reached
      rw [last]
      rfl
    · unfold reached
      rw [last]
      rfl

/-- C2 at three calls, one string passed twice. -/
theorem register_item_sequence_witness :
    [((⟨":1.7"⟩ : GDBusMethodInvocation), "org.test.A"), (⟨":1.8"⟩, "org.test.B"),
      (⟨":1.7"⟩, "org.test.A")] ≠ [] ∧
    (reached 1 [Event.register_item ⟨":1.7"⟩ "org.test.A",
      Event.register_item ⟨":1.8"⟩ "org.test.B",
      Event.register_item ⟨":1.7"⟩ "org.test.A"]).items.keys.length = 2 ∧
    (reached 1 [Event.register_item ⟨":1.7"⟩ "org.test.A",
      Event.register_item ⟨":1.8"⟩ "org.test.B",
      Event.register_item ⟨":1.7"⟩ "org.test.A"]).items.keys.count "org.test.A" = 1 :=
  ⟨by decide, by decide,
    (register_item_sequence 1
      [(⟨":1.7"⟩, "org.test.A"), (⟨":1.8"⟩, "org.test.B"), (⟨":1.7"⟩, "org.test.A")]
      (by decide)).1 "org.test.A" (by decide)⟩

/-- C3: after a non-empty sequence of register-host calls from the empty store,
every string passed is in the hosts table exactly once and nothing else is in
it, and `IsStatusNotifierHostRegistered` is true after the first call and after
every later call. -/
theorem register_host_sequence (owner_id : Nat)
    (calls : List (GDBusMethodInvocation × String)) (h : calls ≠ []) :
    (∀ x, x ∈ calls.map Prod.snd →
      (reached owner_id (calls.map host_call)).hosts.keys.count x = 1) ∧
    (∀ x, x ∉ calls.map Prod.snd →
      (reached owner_id (calls.map host_call)).hosts.keys.count x = 0) ∧
    (reached owner_id (calls.map host_call)).skeleton.is_host_registered = true ∧
    (∀ k, 0 < k → k ≤ calls.length →
      (reached owner_id ((calls.take k).map host_call)).skeleton.is_host_registered = true) := by
  have mem : ∀ x, x ∈ (reached owner_id (calls.map host_call)).hosts.keys ↔
      x ∈ calls.map Prod.snd := by
    intro x
    have := run_host_calls_hosts calls (setup_dbus owner_id).state x
    simpa [reached, setup_dbus, g_hash_table_new_full] using this
  refine ⟨?_, ?_, run_host_calls_flag calls _ h, ?_⟩
  · intro x hx
    rw [count_keys, if_pos ((mem x).mpr hx)]
  · intro x hx
    rw [count_keys, if_neg (fun hm => hx ((mem x).mp hm))]
  · intro k hk hle
    apply run_host_calls_flag
    intro hnil
    have hlen : (calls.take k).length = 0 := by rw [hnil]; rfl
    rw [List.length_take] at hlen
    omega

/-- C3 at three calls, one string passed twice. -/
theorem register_host_sequence_witness :
    [((⟨":1.5"⟩ : GDBusMethodInvocation), "1.2"), (⟨":1.6"⟩, "1.3"), (⟨":1.5"⟩, "1.2")] ≠ [] ∧
    (reached 1 [Event.register_host ⟨":1.5"⟩ "1.2", Event.register_host ⟨":1.6"⟩ "1.3",
      Event.register_host ⟨":1.5"⟩ "1.2"]).hosts.keys.length = 2 ∧
    (reached 1 [Event.register_host ⟨":1.5"⟩ "1.2", Event.register_host ⟨":1.6"⟩ "1.3",
      Event.register_host ⟨":1.5"⟩ "1.2"]).hosts.keys.count "1.2" = 1 :=
  ⟨by decide, by decide,
    (register_host_sequence 1
      [(⟨":1.5"⟩, "1.2"), (⟨":1.6"⟩, "1.3"), (⟨":1.5"⟩, "1.2")]
      (by decide)).1 "1.2" (by decide)⟩

/-- C4, as stated, fails where the vanished item name is also a host: `":1.7"`
is an item of `host_and_item_state`, and its `NameOwnerChanged` event with an
empty new owner changes the hosts table and the published flag. -/
theorem vanished_item_changes_hosts :
    ":1.7" ∈ host_and_item_state.items.keys ∧
    ¬ ((on_name_owner_changed host_and_item_state ":1.7" ":1.7" "").1.hosts.keys =
          host_and_item_state.hosts.keys ∧
        (on_name_owner_changed host_and_item_state ":1.7" ":1.7" "").1.skeleton.is_host_registered =
          host_and_item_state.skeleton.is_host_registered) := by
  decide

/-- C4 (amended): for every state and every name `n` in items, the event
`(n, old_owner, "")` removes exactly `n` from items, republishes
`RegisteredStatusNotifierItems` as the new, one shorter, key list and emits
`StatusNotifierItemUnregistered(n)` exactly once and for no other name. When `n`
is not a host, the hosts table and `IsStatusNotifierHostRegistered` are as
before; when `n` is also a host, the same event evicts it from hosts as well. -/
theorem vanished_item (w : StatusNotifierWatcher) (n old_owner : String)
    (h : n ∈ w.items.keys) :
    (∀ x, x ∈ (on_name_owner_changed w n old_owner "").1.items.keys ↔
      x ≠ n ∧ x ∈ w.items.keys) ∧
    (on_name_owner_changed w n old_owner "").1.items.keys.length + 1 = w.items.keys.length ∧
    (on_name_owner_changed w n old_owner "").1.skeleton.registered_items =
      some (array_from_hash_set (on_name_owner_changed w n old_owner "").1.items) ∧
    (∀ v, Effect.set_registered_items v ∈ (on_name_owner_changed w n old_owner "").2 ↔
      v = some (array_from_hash_set (on_name_owner_changed w n old_owner "").1.items)) ∧
    (on_name_owner_changed w n old_owner "").2.filter is_item_unregistered =
      [Effect.emit_item_unregistered n] ∧
    (n ∉ w.hosts.keys →
      (on_name_owner_changed w n old_owner "").1.hosts = w.hosts ∧
      (on_name_owner_changed w n old_owner "").1.skeleton.is_host_registered =
        w.skeleton.is_host_registered) ∧
    (n ∈ w.hosts.keys →
      ∀ x, x ∈ (on_name_owner_changed w n old_owner "").1.hosts.keys ↔
        x ≠ n ∧ x ∈ w.hosts.keys) := by
  have hi := items_branch_evicts w n h
  have hf := hosts_branch_frame (name_owner_changed_items w n "").1 n ""
  obtain ⟨hf1, hf2, hf3, hf4⟩ := hf
  have hitems : (on_name_owner_changed w n old_owner "").1.items =
      g_hash_table_remove w.items n := by
    show (name_owner_changed_hosts (name_owner_changed_items w n "").1 n "").1.items = _
    rw [hf1, hi]
  have hprop : (on_name_owner_changed w n old_owner "").1.skeleton.registered_items =
      some (array_from_hash_set (g_hash_table_remove w.items n)) := by
    show (name_owner_changed_hosts (name_owner_changed_items w n "").1 n
      "").1.skeleton.registered_items = _
    rw [hf2, hi]
    rfl
  have heff : (on_name_owner_changed w n old_owner "").2 =
      [ Effect.print "Name owner changed\n",
        Effect.print ("Name: " ++ n ++ ", old owner: " ++ old_owner ++
          ", new owner: " ++ "" ++ "\n"),
        Effect.print ("Removing StatusNotifierItem " ++ n ++ "\n"),
        Effect.set_registered_items (some (array_from_hash_set (g_hash_table_remove w.items n))),
        Effect.emit_item_unregistered n ] ++
      (name_owner_changed_hosts (name_owner_changed_items w n "").1 n "").2 := by
    show _ ++ (name_owner_changed_items w n "").2 ++ _ = _
    rw [hi]
    rfl
  refine ⟨?_, ?_, ?_, ?_, ?_, ?_, ?_⟩
  · intro x
    rw [hitems]
    exact mem_keys_remove w.items n x
  · rw [hitems]
    show (w.items.keys.erase n).length + 1 = w.items.keys.length
    rw [List.length_erase_of_mem h]
    have := List.length_pos_of_mem h
    omega
  · rw [hprop, hitems]
  · intro v
    rw [hitems, heff]
    constructor
    · intro hv
      rcases List.mem_append.mp hv with hv | hv
      · simpa using hv
      · exact absurd hv (hf4 v)
    · intro hv
      subst hv
      simp
  · rw [heff, List.filter_append, hf3]
    rfl
  · intro hn
    have hidle := hosts_branch_idle (name_owner_changed_items w n "").1 n ""
      (Or.inr (by rw [(items_branch_frame w n "").1]; exact hn))
    constructor
    · show (name_owner_changed_hosts (name_owner_changed_items w n "").1 n "").1.hosts = _
      rw [hidle]
      exact (items_branch_frame w n "").1
    · show (name_owner_changed_hosts (name_owner_changed_items w n "").1 n
        "").1.skeleton.is_host_registered = _
      rw [hidle]
      exact (items_branch_frame w n "").2
  · intro hn x
    have hn' : n ∈ (name_owner_changed_items w n "").1.hosts.keys := by
      rw [(items_branch_frame w n "").1]; exact hn
    show x ∈ (name_owner_changed_hosts (name_owner_changed_items w n "").1 n "").1.hosts.keys ↔ _
    rw [(hosts_branch_evicts _ n hn').1, mem_keys_remove, (items_branch_frame w n "").1]

/-- C4 at the scenario of the claim: items `"org.test.A"` and `"org.test.B"`
registered, then `"org.test.A"` vanishes. -/
theorem vanished_item_witness :
    "org.test.A" ∈ two_items_state.items.keys ∧
    (on_name_owner_changed two_items_state "org.test.A" ":1.7" "").1.skeleton.registered_items =
      some ["org.test.B"] ∧
    (on_name_owner_changed two_items_state "org.test.A" ":1.7" "").2.filter is_item_unregistered =
      [Effect.emit_item_unregistered "org.test.A"] ∧
    ((on_name_owner_changed two_items_state "org.test.A" ":1.7" "").1.hosts =
        two_items_state.hosts ∧
      (on_name_owner_changed two_items_state "org.test.A" ":1.7" "").1.skeleton.is_host_registered =
        two_items_state.skeleton.is_host_registered) :=
  ⟨by decide, by decide,
    (vanished_item two_items_state "org.test.A" ":1.7" (by decide)).2.2.2.2.1,
    (vanished_item two_items_state "org.test.A" ":1.7" (by decide)).2.2.2.2.2.1 (by decide)⟩

/-- C5: in every state reached from `setup_dbus` and for every name `n` in
hosts, the event `(n, old_owner, "")` removes `n` (and nothing else) from hosts;
afterwards `IsStatusNotifierHostRegistered` is false when `n` was the only host
and true when some other host was registered. -/
theorem vanished_host (owner_id : Nat) (events : List Event) (n old_owner : String)
    (h : n ∈ (reached owner_id events).hosts.keys) :
    (∀ x, x ∈ (on_name_owner_changed (reached owner_id events) n old_owner "").1.hosts.keys ↔
      x ≠ n ∧ x ∈ (reached owner_id events).hosts.keys) ∧
    ((∀ x, x ∈ (reached owner_id events).hosts.keys → x = n) →
      (on_name_owner_changed (reached owner_id events) n old_owner
        "").1.skeleton.is_host_registered = false) ∧
    ((∃ x, x ∈ (reached owner_id events).hosts.keys ∧ x ≠ n) →
      (on_name_owner_changed (reached owner_id events) n old_owner
        "").1.skeleton.is_host_registered = true) := by
  have hfr := items_branch_frame (reached owner_id events) n ""
  have hflag : flag_matches_hosts (name_owner_changed_items (reached owner_id events) n "").1 :=
    name_owner_changed_items_keeps_flag _ n "" (reached_flag owner_id events)
  have h' : n ∈ (name_owner_changed_items (reached owner_id events) n "").1.hosts.keys := by
    rw [hfr.1]; exact h
  have key := hosts_branch_flag _ n hflag h'
  rw [hfr.1] at key
  exact key

/-- C5 at the scenario of the claim: hosts `"1.2"` and `"1.3"` registered; when
`"1.2"` vanishes the flag stays true, when `"1.3"` vanishes next it is false. -/
theorem vanished_host_witness :
    "1.2" ∈ (reached 1 two_hosts_events).hosts.keys ∧
    (on_name_owner_changed (reached 1 two_hosts_events) "1.2" ":1.5"
      "").1.skeleton.is_host_registered = true ∧
    "1.3" ∈ (reached 1 (two_hosts_events ++
      [Event.name_owner_changed "1.2" ":1.5" ""])).hosts.keys ∧
    (on_name_owner_changed
      (reached 1 (two_hosts_events ++ [Event.name_owner_changed "1.2" ":1.5" ""]))
      "1.3" ":1.6" "").1.skeleton.is_host_registered = false :=
  ⟨by decide,
    (vanished_host 1 two_hosts_events "1.2" ":1.5" (by decide)).2.2
      ⟨"1.3", by decide, by decide⟩,
    by decide,
    (vanished_host 1 (two_hosts_events ++ [Event.name_owner_changed "1.2" ":1.5" ""])
      "1.3" ":1.6" (by decide)).2.1 (by decide)⟩

/-- C6: a `NameOwnerChanged` event whose new owner is not empty, or whose name is
in neither table, leaves the whole state as it was (both tables and both
published properties) and makes no outbound call other than its log lines: no
reply, no property update, no signal. -/
theorem name_owner_changed_ignored (w : StatusNotifierWatcher)
    (name old_owner new_owner : String)
    (h : new_owner ≠ "" ∨ (name ∉ w.hosts.keys ∧ name ∉ w.items.keys)) :
    (on_name_owner_changed w name old_owner new_owner).1 = w ∧
    ∀ e, e ∈ (on_name_owner_changed w name old_owner new_owner).2 → is_print e = true := by
  have hi : name_owner_changed_items w name new_owner = (w, []) :=
    items_branch_idle w name new_owner (by tauto)
  have hh : name_owner_changed_hosts w name new_owner = (w, []) :=
    hosts_branch_idle w name new_owner (by tauto)
  have hs : (on_name_owner_changed w name old_owner new_owner).1 = w := by
    show (name_owner_changed_hosts (name_owner_changed_items w name new_owner).1
      name new_owner).1 = w
    rw [hi, hh]
  have he : (on_name_owner_changed w name old_owner new_owner).2 =
      [ Effect.print "Name owner changed\n",
        Effect.print ("Name: " ++ name ++ ", old owner: " ++ old_owner ++
          ", new owner: " ++ new_owner ++ "\n") ] := by
    show _ ++ (name_owner_changed_items w name new_owner).2 ++
      (name_owner_changed_hosts (name_owner_changed_items w name new_owner).1
        name new_owner).2 = _
    rw [hi, hh]
    rfl
  refine ⟨hs, ?_⟩
  intro e hmem
  rw [he] at hmem
  simp only [List.mem_cons, List.mem_singleton, List.not_mem_nil, or_false] at hmem
  rcases hmem with rfl | rfl <;> rfl

/-- C6 at a tracked item whose name changes hands (new owner not empty). -/
theorem name_owner_changed_ignored_witness :
    (":1.9" ≠ "" ∨ ("org.test.A" ∉ two_items_state.hosts.keys ∧
      "org.test.A" ∉ two_items_state.items.keys)) ∧
    (on_name_owner_changed two_items_state "org.test.A" ":1.7" ":1.9").1 = two_items_state :=
  ⟨Or.inl (by decide),
    (name_owner_changed_ignored two_items_state "org.test.A" ":1.7" ":1.9"
      (Or.inl (by decide))).1⟩

/-- C7: for every state, invocation and service string, `on_register_host`
returns `G_DBUS_METHOD_INVOCATION_HANDLED`, makes exactly one reply, the success
reply to its invocation, sets `IsStatusNotifierHostRegistered` to true and
emits `StatusNotifierHostRegistered` exactly once; `on_register_item` returns
`G_DBUS_METHOD_INVOCATION_HANDLED`, makes exactly one reply, the success reply
to its invocation, republishes the item list and emits exactly one
`StatusNotifierItemRegistered`, carrying the service string passed. -/
theorem registration_always_succeeds (w : StatusNotifierWatcher)
    (invocation : GDBusMethodInvocation) (service : String) :
    ((on_register_host w invocation service).ret = G_DBUS_METHOD_INVOCATION_HANDLED ∧
      (on_register_host w invocation service).effects.filter is_reply =
        [Effect.complete_register_host invocation] ∧
      (on_register_host w invocation service).effects.filter is_property_update =
        [Effect.set_is_host_registered true] ∧
      (on_register_host w invocation service).state.skeleton.is_host_registered = true ∧
      (on_register_host w invocation service).effects.count Effect.emit_host_registered = 1) ∧
    ((on_register_item w invocation service).ret = G_DBUS_METHOD_INVOCATION_HANDLED ∧
      (on_register_item w invocation service).effects.filter is_reply =
        [Effect.complete_register_item invocation] ∧
      (on_register_item w invocation service).effects.filter is_property_update =
        [Effect.set_registered_items
          (some (array_from_hash_set (on_register_item w invocation service).state.items))] ∧
      (on_register_item w invocation service).state.skeleton.registered_items =
        some (array_from_hash_set (on_register_item w invocation service).state.items) ∧
      (on_register_item w invocation service).effects.filter is_item_registered =
        [Effect.emit_item_registered service]) := by
  refine ⟨⟨rfl, rfl, rfl, rfl, ?_⟩, ⟨rfl, rfl, rfl, rfl, rfl⟩⟩
  simp [on_register_host, List.count_cons]

/-- C8, as stated, fails: a call from connection `":1.5"` with service argument
`"org.kde.StatusNotifierHost-42"` on the fresh store leaves hosts without the
sender and with the argument, which was not there before and is not the sender. -/
theorem register_host_ignores_sender :
    ":1.5" ∉ (on_register_host (setup_dbus 1).state ⟨":1.5"⟩
      "org.kde.StatusNotifierHost-42").state.hosts.keys ∧
    "org.kde.StatusNotifierHost-42" ∈ (on_register_host (setup_dbus 1).state ⟨":1.5"⟩
      "org.kde.StatusNotifierHost-42").state.hosts.keys ∧
    "org.kde.StatusNotifierHost-42" ∉ (setup_dbus 1).state.hosts.keys ∧
    "org.kde.StatusNotifierHost-42" ≠ (⟨":1.5"⟩ : GDBusMethodInvocation).sender := by
  decide

/-- C8 (amended): the identifier a register-host call inserts into hosts is its
service argument `s`, whoever the sender is: hosts afterwards contains `s`,
every name in it is `s` or was there before (so it contains the sender only if
the sender was already present or is `s`), and the resulting state does not
depend on the invocation. -/
theorem register_host_inserts_service (w : StatusNotifierWatcher)
    (invocation : GDBusMethodInvocation) (s : String) :
    s ∈ (on_register_host w invocation s).state.hosts.keys ∧
    (∀ x, x ∈ (on_register_host w invocation s).state.hosts.keys ↔ x = s ∨ x ∈ w.hosts.keys) ∧
    (invocation.sender ∈ (on_register_host w invocation s).state.hosts.keys →
      invocation.sender = s ∨ invocation.sender ∈ w.hosts.keys) ∧
    (∀ other : GDBusMethodInvocation,
      (on_register_host w other s).state = (on_register_host w invocation s).state) :=
  ⟨(register_host_hosts w invocation s s).mpr (Or.inl rfl),
    fun x => register_host_hosts w invocation s x,
    fun hx => (register_host_hosts w invocation s invocation.sender).mp hx,
    fun _ => rfl⟩

/-- C9: the outbound calls of `on_register_host` after its log line are, in
order, the success reply, the update of `IsStatusNotifierHostRegistered` and the
signal: the reply comes before the property update. In `on_register_item` they
are the update of `RegisteredStatusNotifierItems`, the success reply and the
signal. -/
theorem register_host_replies_before_update (w : StatusNotifierWatcher)
    (invocation : GDBusMethodInvocation) (service : String) :
    (on_register_host w invocation service).effects.filter (fun e => !is_print e) =
      [ Effect.complete_register_host invocation,
        Effect.set_is_host_registered true,
        Effect.emit_host_registered ] ∧
    (on_register_item w invocation service).effects.filter (fun e => !is_print e) =
      [ Effect.set_registered_items
          (some (array_from_hash_set (on_register_item w invocation service).state.items)),
        Effect.complete_register_item invocation,
        Effect.emit_item_registered service ] :=
  ⟨rfl, rfl⟩

/-- C10: `on_register_host` keeps every host, leaves the items table unchanged
and emits no `StatusNotifierItemUnregistered`; `on_register_item` keeps every
item, leaves the hosts table and `IsStatusNotifierHostRegistered` unchanged and
emits no `StatusNotifierItemUnregistered`; and whenever an event makes a name
leave hosts or items, that event is `NameOwnerChanged` for that very name with
an empty new owner. -/
theorem registration_never_removes (w : StatusNotifierWatcher)
    (invocation : GDBusMethodInvocation) (service : String) :
    ((∀ x, x ∈ w.hosts.keys → x ∈ (on_register_host w invocation service).state.hosts.keys) ∧
      (on_register_host w invocation service).state.items = w.items ∧
      (on_register_host w invocation service).effects.filter is_item_unregistered = []) ∧
    ((∀ x, x ∈ w.items.keys → x ∈ (on_register_item w invocation service).state.items.keys) ∧
      (on_register_item w invocation service).state.hosts = w.hosts ∧
      (on_register_item w invocation service).state.skeleton.is_host_registered =
        w.skeleton.is_host_registered ∧
      (on_register_item w invocation service).effects.filter is_item_unregistered = []) ∧
    (∀ (e : Event) (x : String),
      (x ∈ w.hosts.keys ∧ x ∉ (dispatch w e).1.hosts.keys) ∨
        (x ∈ w.items.keys ∧ x ∉ (dispatch w e).1.items.keys) →
      ∃ old_owner, e = Event.name_owner_changed x old_owner "") := by
  refine ⟨⟨?_, rfl, rfl⟩, ⟨?_, rfl, rfl, rfl⟩, ?_⟩
  · intro x hx
    exact (register_host_hosts w invocation service x).mpr (Or.inr hx)
  · intro x hx
    exact (register_item_items w invocation service x).mpr (Or.inr hx)
  · intro e x hgone
    cases e with
    | register_host i s =>
        rcases hgone with ⟨hx, hn⟩ | ⟨hx, hn⟩
        · exact absurd ((register_host_hosts w i s x).mpr (Or.inr hx)) hn
        · exact absurd hx hn
    | register_item i s =>
        rcases hgone with ⟨hx, hn⟩ | ⟨hx, hn⟩
        · exact absurd hx hn
        · exact absurd ((register_item_items w i s x).mpr (Or.inr hx)) hn
    | name_owner_changed n o o2 =>
        have hfi := items_branch_frame w n o2
        have hfh := hosts_branch_frame (name_owner_changed_items w n o2).1 n o2
        rcases hgone with ⟨hx, hn⟩ | ⟨hx, hn⟩
        · have hx' : x ∈ (name_owner_changed_items w n o2).1.hosts.keys := by
            rw [hfi.1]; exact hx
          obtain ⟨rfl, rfl⟩ := hosts_branch_keeps _ n o2 x hx' hn
          exact ⟨o, rfl⟩
        · have hn' : x ∉ (name_owner_changed_items w n o2).1.items.keys := by
            rw [← hfh.1]; exact hn
          obtain ⟨rfl, rfl⟩ := items_branch_keeps w n o2 x hx hn'
          exact ⟨o, rfl⟩

end SNW
